import Mathlib

/-!
Verification of the session interaction engine of the learning-portal client:
the chat session controller (`LearningPage.handleSendMessage` together with
`chatService.ask` and the axios instance in `services/api`) and the quiz
session state machine (`QuizPage` with its handlers and view guards).

The embedding is shallow: each React `useState` cell becomes a field of an
explicit state structure, each handler becomes a state-transition function,
and the UI guards (which buttons are rendered and enabled in each view)
become guards of an event-application function.  Wall-clock time is passed
explicitly in milliseconds; JS number arithmetic is modelled exactly over ℚ.
-/

/- ### Chat session controller (LearningPage + services) -/

/-- Role of a chat message (`Message.role` in `types`). -/
inductive Role where
  | user
  | assistant
deriving DecidableEq, Repr

/-- A chat `Message` from `types`: id, role, content, timestamp (ms),
optional difficulty tag and sources. -/
structure Message where
  id : String
  role : Role
  content : String
  timestamp : Nat
  difficulty : Option String := none
  sources : List String := []
deriving DecidableEq, Repr

/-- Response body of the `/ask` operation (`ChatResponse` in `services/chat`). -/
structure ChatResponse where
  answer : String
  sources : List String
  student_xp : Nat
  difficulty : String
deriving DecidableEq, Repr

/-- The mutable state of `LearningPage`: the `messages`, `input`,
`isLoading` and `error` state cells. -/
structure ChatState where
  messages : List Message
  input : String
  isLoading : Bool
  error : Option String
deriving DecidableEq, Repr

/-- JS `s.trim()`: strip leading and trailing whitespace. -/
def jsTrim (s : String) : String :=
  String.mk
    (((s.data.dropWhile Char.isWhitespace).reverse.dropWhile
        Char.isWhitespace).reverse)

/-- The axios instance in `services/api` is created with
`timeout: 120000`: the transport-level ceiling in milliseconds. -/
def apiTimeoutMs : Nat := 120000

/-- The frontend deadline scheduled in `handleSendMessage`:
`setTimeout(() => controller.abort(), 15000)`. -/
def chatDeadlineMs : Nat := 15000

/-- Whether the `AbortController` signal created in `handleSendMessage` is
passed into the network request.  In the source, `chatService.ask` is called
with `(student.id, userMsg.content, subjectId, chapterId)` only, and
`chatService.ask` posts via `api.post("/ask", body)` with no options
argument, so the signal is wired to nothing. -/
def abortSignalWired : Bool := false

/-- How the awaited `/ask` call settles, given the backend delay (ms) and
the backend result.  The scheduled abort interrupts the request only when
the abort signal is wired into it; otherwise the request runs until the
backend responds or the axios transport ceiling fires. -/
inductive AskOutcome where
  | success (r : ChatResponse)
  | abortError
  | transportTimeout
  | transportFailure (message : String)
deriving DecidableEq, Repr

/-- Outcome of the awaited `/ask` call as a function of the backend delay
(ms until the backend would respond) and the backend result. -/
def askOutcome (backendDelay : Nat) (backend : Except String ChatResponse) :
    AskOutcome :=
  if abortSignalWired && decide (chatDeadlineMs < backendDelay) then
    AskOutcome.abortError
  else if apiTimeoutMs ≤ backendDelay then
    AskOutcome.transportTimeout
  else
    match backend with
    | Except.ok r => AskOutcome.success r
    | Except.error m => AskOutcome.transportFailure m

/-- Time (ms after the send) at which the awaited `/ask` call settles. -/
def askSettleMs (backendDelay : Nat) : Nat :=
  if abortSignalWired && decide (chatDeadlineMs < backendDelay) then
    chatDeadlineMs
  else
    min backendDelay apiTimeoutMs

/-- JS substring test mirroring `m.includes("timeout")`. -/
def includesTimeout (m : String) : Bool :=
  decide (2 ≤ (m.splitOn "timeout").length)

/-- The timeout classification in the catch branch of `handleSendMessage`:
`err.name === "AbortError" || err.message.includes("timeout")`.  An axios
transport timeout rejects with message `timeout of 120000ms exceeded`,
which contains `timeout`. -/
def isTimeoutOutcome : AskOutcome → Bool
  | AskOutcome.success _ => false
  | AskOutcome.abortError => true
  | AskOutcome.transportTimeout => true
  | AskOutcome.transportFailure m => includesTimeout m

/-- Fixed assistant text appended on a timeout. -/
def timeoutChatText : String :=
  "⏱️ The AI is taking too long to respond. Please try a simpler question."

/-- Fixed assistant text appended on a non-timeout failure. -/
def connectionChatText : String :=
  "I\x27m having trouble connecting. Please try again."

/-- Session-level warning banner for a timeout. -/
def timeoutBanner : String := "Request timed out. The AI model may be busy."

/-- Session-level warning banner for a generic failure. -/
def connectionBanner : String := "Connection error."

/-- `handleSendMessage` of `LearningPage`.  `student`, `subjectId` and
`chapterId` are the route/auth context; `now` is `Date.now()` at the send
(ms); `backendDelay` and `backend` describe the backend behaviour for this
call.  Returns the state after the handler (including its `finally`) has
run. -/
def handleSendMessage (student subjectId chapterId : Option String)
    (st : ChatState) (now backendDelay : Nat)
    (backend : Except String ChatResponse) : ChatState :=
  if (jsTrim st.input).isEmpty || student.isNone || subjectId.isNone ||
      chapterId.isNone || st.isLoading then
    st
  else
    let userMsg : Message :=
      { id := toString now, role := Role.user, content := st.input,
        timestamp := now }
    let st1 : ChatState :=
      { st with
        messages := st.messages ++ [userMsg],
        input := "",
        isLoading := true,
        error := none }
    let settle : Nat := now + askSettleMs backendDelay
    match askOutcome backendDelay backend with
    | AskOutcome.success r =>
        { st1 with
          messages := st1.messages ++
            [{ id := toString (settle + 1), role := Role.assistant,
               content := r.answer, timestamp := settle,
               difficulty := some r.difficulty, sources := r.sources }],
          isLoading := false }
    | o =>
        let isT := isTimeoutOutcome o
        { st1 with
          error := some (if isT then timeoutBanner else connectionBanner),
          messages := st1.messages ++
            [{ id := toString settle, role := Role.assistant,
               content := if isT then timeoutChatText else connectionChatText,
               timestamp := settle }],
          isLoading := false }

/- ### Quiz session state machine (QuizPage) -/

/-- A `QuizQuestion` as supplied by the backend. -/
structure QuizQuestion where
  id : Nat
  question : String
  options : List String
deriving DecidableEq, Repr

/-- A `QuizData` response of `/quiz/generate`. -/
structure QuizData where
  quiz_id : String
  difficulty : String
  questions : List QuizQuestion
deriving DecidableEq, Repr

/-- A `QuizResult` response of `/quiz/submit`. -/
structure QuizResult where
  score : Nat
  total : Nat
  xp_gained : Nat
  difficulty : String
  confidence_score : ℚ
  learning_momentum : ℚ
  weak_topics : List String
deriving DecidableEq, Repr

/-- The `step` state cell of `QuizPage`: setup, quiz (active) or result. -/
inductive QStep where
  | setup
  | quiz
  | result
deriving DecidableEq, Repr

/-- The mutable state of `QuizPage`: one field per `useState` cell that the
session logic reads or writes (`startTime` is set once, at mount, to
`Date.now()` and has no setter). -/
structure QuizPageState where
  step : QStep
  subject : String
  chapterId : String
  quiz : Option QuizData
  answers : List (Nat × String)
  currentQ : Nat
  result : Option QuizResult
  loading : Bool
  error : Option String
  startTime : Nat
deriving DecidableEq, Repr

/-- The state of `QuizPage` right after mount: `step` at setup, subject and
chapter seeded from the URL search params, empty answers, `currentQ=0`,
no quiz, no result, and `startTime` fixed to the mount time `t0`. -/
def initQuizState (subject chapterId : String) (t0 : Nat) : QuizPageState :=
  { step := QStep.setup, subject := subject, chapterId := chapterId,
    quiz := none, answers := [], currentQ := 0, result := none,
    loading := false, error := none, startTime := t0 }

/-- JS spread-update `\x7b...prev, [k]: v\x7d` on the `answers` record: if the key
is present its value is replaced in place, otherwise the pair is added. -/
def recordInsert : List (Nat × String) → Nat → String → List (Nat × String)
  | [], k, v => [(k, v)]
  | p :: rest, k, v =>
      if p.1 = k then (k, v) :: rest else p :: recordInsert rest k v

/-- JS record lookup `m[k]` on the `answers` record, `undefined` as `none`. -/
def recordGet : List (Nat × String) → Nat → Option String
  | [], _ => none
  | p :: rest, k => if p.1 = k then some p.2 else recordGet rest k

/-- JS truthiness of `answers[q.id]`: present and not the empty string. -/
def strTruthy : Option String → Bool
  | none => false
  | some s => !s.isEmpty

/-- `handleSelectAnswer` of `QuizPage`: record/overwrite the chosen option
for the given question id. -/
def handleSelectAnswer (st : QuizPageState) (questionId : Nat)
    (answer : String) : QuizPageState :=
  { st with answers := recordInsert st.answers questionId answer }

/-- Error copy chosen in the catch branch of `handleStartQuiz`. -/
def startQuizErrorText (msg : String) : String :=
  if includesTimeout msg then "Server timed out. Try again."
  else "Failed to generate quiz. Check your connection."

/-- `handleStartQuiz` of `QuizPage`, with the network outcome of
`/quiz/generate` passed explicitly.  The `finally` clause clears `loading`,
so the handler is modelled as its net effect on the state at rest. -/
def handleStartQuiz (st : QuizPageState)
    (outcome : Except String QuizData) : QuizPageState :=
  if st.subject.isEmpty || st.chapterId.isEmpty then st
  else
    match outcome with
    | Except.ok d =>
        if d.questions.isEmpty then
          { st with
            loading := false,
            error := some "Quiz returned no questions. Please try again." }
        else
          { st with
            quiz := some d,
            step := QStep.quiz,
            currentQ := 0,
            answers := [],
            loading := false,
            error := none }
    | Except.error m =>
        { st with loading := false, error := some (startQuizErrorText m) }

/-- Elapsed seconds computed in `handleSubmitQuiz`:
`(Date.now() - startTime) / 1000`. -/
def submitTimeTaken (st : QuizPageState) (now : Nat) : ℚ :=
  ((now - st.startTime : ℕ) : ℚ) / 1000

/-- The request body of `/quiz/submit` built in `handleSubmitQuiz`. -/
structure SubmitPayload where
  student_id : String
  quiz_id : String
  answers : List (Nat × String)
  time_taken : ℚ
deriving DecidableEq, Repr

/-- The payload `handleSubmitQuiz` posts to `/quiz/submit`. -/
def submitPayload (studentId : String) (qz : QuizData)
    (st : QuizPageState) (now : Nat) : SubmitPayload :=
  { student_id := studentId, quiz_id := qz.quiz_id,
    answers := st.answers, time_taken := submitTimeTaken st now }

/-- Error copy of a failed quiz submission. -/
def submitFailedText : String :=
  "Failed to submit quiz. Your answers were not saved."

/-- `handleSubmitQuiz` of `QuizPage`, with the network outcome of
`/quiz/submit` passed explicitly (`finally` clears `loading`). -/
def handleSubmitQuiz (st : QuizPageState) (_now : Nat)
    (outcome : Except String QuizResult) : QuizPageState :=
  match st.quiz with
  | none => st
  | some _ =>
      match outcome with
      | Except.ok r =>
          { st with
            result := some r,
            step := QStep.result,
            loading := false,
            error := none }
      | Except.error _ =>
          { st with loading := false, error := some submitFailedText }

/-- The `New Quiz` button handler of the result view:
`setStep("setup"); setQuiz(null); setResult(null);`. -/
def newQuizClick (st : QuizPageState) : QuizPageState :=
  { st with step := QStep.setup, quiz := none, result := none }

/-- `isLast` of the quiz view: `currentQ === quiz.questions.length - 1`. -/
def isLastQ (qz : QuizData) (st : QuizPageState) : Bool :=
  st.currentQ == qz.questions.length - 1

/-- `allAnswered` of the quiz view: every question of the quiz has a truthy
recorded answer. -/
def allAnswered (qz : QuizData) (st : QuizPageState) : Bool :=
  qz.questions.all (fun q => strTruthy (recordGet st.answers q.id))

deriving instance DecidableEq for Except

/-- The user-interface events of `QuizPage`.  Each corresponds to a control
of one of the three views; network-dependent events carry the outcome of
the network call they trigger. -/
inductive QuizEv where
  | setSubject (s : String)
  | setChapter (c : String)
  | startQuiz (outcome : Except String QuizData)
  | selectOpt (opt : String)
  | next
  | previous
  | submit (outcome : Except String QuizResult)
  | newQuiz
deriving DecidableEq, Repr

/-- One user-interface step of `QuizPage` at wall time `now` (ms): the event
fires only when its control is rendered and enabled in the current view;
otherwise the state is unchanged. -/
def applyEv (st : QuizPageState) (now : Nat) : QuizEv → QuizPageState
  | QuizEv.setSubject s =>
      if st.step = QStep.setup then
        { st with subject := s, chapterId := "" }
      else st
  | QuizEv.setChapter c =>
      if st.step = QStep.setup && !st.subject.isEmpty then
        { st with chapterId := c }
      else st
  | QuizEv.startQuiz o =>
      if st.step = QStep.setup && !st.subject.isEmpty &&
          !st.chapterId.isEmpty && !st.loading then
        handleStartQuiz st o
      else st
  | QuizEv.selectOpt opt =>
      match st.step, st.quiz with
      | QStep.quiz, some qz =>
          match qz.questions.get? st.currentQ with
          | some q =>
              if opt ∈ q.options then handleSelectAnswer st q.id opt else st
          | none => st
      | _, _ => st
  | QuizEv.next =>
      match st.step, st.quiz with
      | QStep.quiz, some qz =>
          match qz.questions.get? st.currentQ with
          | some q =>
              if !isLastQ qz st && strTruthy (recordGet st.answers q.id) then
                { st with currentQ := st.currentQ + 1 }
              else st
          | none => st
      | _, _ => st
  | QuizEv.previous =>
      match st.step, st.quiz with
      | QStep.quiz, some _ =>
          if 0 < st.currentQ then { st with currentQ := st.currentQ - 1 }
          else st
      | _, _ => st
  | QuizEv.submit o =>
      match st.step, st.quiz with
      | QStep.quiz, some qz =>
          if isLastQ qz st && allAnswered qz st && !st.loading then
            handleSubmitQuiz st now o
          else st
      | _, _ => st
  | QuizEv.newQuiz =>
      if st.step = QStep.result && st.result.isSome then newQuizClick st
      else st

/-- Run a timed sequence of events from a state. -/
def runEvents (st : QuizPageState) : List (Nat × QuizEv) → QuizPageState
  | [] => st
  | (t, e) :: rest => runEvents (applyEv st t e) rest

/-- States of `QuizPage` reachable from some mount state by user-interface
events. -/
inductive Reachable : QuizPageState → Prop where
  | init (subject chapterId : String) (t0 : Nat) :
      Reachable (initQuizState subject chapterId t0)
  | step {st : QuizPageState} (h : Reachable st) (now : Nat) (e : QuizEv) :
      Reachable (applyEv st now e)

/- ### Result view display (QuizPage result branch) -/

/-- `Math.round((result.score / result.total) * 100)` of the result view,
with JS numbers modelled exactly over ℚ (`Math.round` is round half up,
as is Mathlib `round` on ℚ). -/
def quizPercentage (r : QuizResult) : ℤ :=
  round (((r.score : ℚ) / (r.total : ℚ)) * 100)

/-- `isGood` of the result view: `percentage >= 60`, computed on the
rounded percentage. -/
def quizIsGood (r : QuizResult) : Bool :=
  decide (60 ≤ quizPercentage r)

/- ### Reachability invariant of the quiz state machine -/

/-- Invariant of `QuizPage` states at rest: not loading, answer keys are
distinct, in the quiz phase the session is well formed (quiz present,
non-empty question list, index in range, answer keys among question ids),
and in the result phase a result is present. -/
def QuizInv (st : QuizPageState) : Prop :=
  st.loading = false ∧
  (st.answers.map Prod.fst).Nodup ∧
  (st.step = QStep.quiz →
    ∃ qz, st.quiz = some qz ∧ qz.questions ≠ [] ∧
      st.currentQ < qz.questions.length ∧
      ∀ k ∈ st.answers.map Prod.fst, k ∈ qz.questions.map QuizQuestion.id) ∧
  (st.step = QStep.result → st.result.isSome = true)

/- ### Concrete demonstration data -/

/-- A five-question quiz as returned by `/quiz/generate`. -/
def demoQuiz : QuizData :=
  { quiz_id := "qz1", difficulty := "medium",
    questions :=
      [⟨1, "Q1", ["A", "B", "C", "D"]⟩, ⟨2, "Q2", ["A", "B", "C", "D"]⟩,
       ⟨3, "Q3", ["A", "B", "C", "D"]⟩, ⟨4, "Q4", ["A", "B", "C", "D"]⟩,
       ⟨5, "Q5", ["A", "B", "C", "D"]⟩] }

/-- A generation response carrying zero questions. -/
def emptyQuiz : QuizData :=
  { quiz_id := "qz0", difficulty := "easy", questions := [] }

/-- The quiz state right after a successful generation at wall time
30000ms, starting from a page mounted at time 0. -/
def demoActive : QuizPageState :=
  applyEv (initQuizState "math" "ch1_linear_equations" 0) 30000
    (QuizEv.startQuiz (Except.ok demoQuiz))

/-- A trace that generates `demoQuiz` at 30000ms and then answers all five
questions, ending on the last question. -/
def demoAnswerTrace : List (Nat × QuizEv) :=
  [(30000, QuizEv.startQuiz (Except.ok demoQuiz)),
   (31000, QuizEv.selectOpt "A"), (32000, QuizEv.next),
   (33000, QuizEv.selectOpt "B"), (34000, QuizEv.next),
   (35000, QuizEv.selectOpt "C"), (36000, QuizEv.next),
   (37000, QuizEv.selectOpt "A"), (38000, QuizEv.next),
   (39000, QuizEv.selectOpt "D")]

/-- The fully answered state on the last question. -/
def demoAnswered : QuizPageState :=
  runEvents (initQuizState "math" "ch1_linear_equations" 0) demoAnswerTrace

/-- A scored submission response. -/
def demoResult : QuizResult :=
  { score := 4, total := 5, xp_gained := 40, difficulty := "medium",
    confidence_score := 4/5, learning_momentum := 6/5, weak_topics := [] }

/-- The result-phase state after a successful submission at 90000ms. -/
def demoResultState : QuizPageState :=
  applyEv demoAnswered 90000 (QuizEv.submit (Except.ok demoResult))

/-- A `QuizResult` whose raw ratio 119/200 = 0.595 lies below 3/5 while its
rounded display percentage is 60. -/
def r119 : QuizResult :=
  { score := 119, total := 200, xp_gained := 0, difficulty := "medium",
    confidence_score := 0, learning_momentum := 0, weak_topics := [] }

/-- Chat state with a typed question and no pending request. -/
def demoChatState : ChatState :=
  { messages := [], input := "Explain the key concepts",
    isLoading := false, error := none }

/-- A successful `/ask` response. -/
def demoResp : ChatResponse :=
  { answer := "The key concepts are: ...", sources := ["lesson1"],
    student_xp := 10, difficulty := "medium" }

/-- The chat state after a send at 1000ms whose backend responds
successfully after 20000ms, five seconds past the intended 15000ms
deadline. -/
def chatAfterSlowSuccess : ChatState :=
  handleSendMessage (some "s1") (some "math") (some "ch1_linear_equations")
    demoChatState 1000 20000 (Except.ok demoResp)

/- ### Record helper lemmas -/

/-- Looking up the key just written returns the new value. -/
theorem recordGet_recordInsert_self (m : List (Nat × String)) (k : Nat)
    (v : String) : recordGet (recordInsert m k v) k = some v := by
  induction m with
  | nil => simp [recordInsert, recordGet]
  | cons p rest ih =>
      by_cases h : p.1 = k
      · simp [recordInsert, recordGet, h]
      · simp [recordInsert, recordGet, h, ih]

/-- Keys after an insert are the old keys plus (at most) the new key. -/
theorem mem_keys_recordInsert (m : List (Nat × String)) (k : Nat) (v : String)
    (x : Nat) :
    x ∈ (recordInsert m k v).map Prod.fst ↔
      x = k ∨ x ∈ m.map Prod.fst := by
  induction m with
  | nil => simp [recordInsert]
  | cons p rest ih =>
      by_cases h : p.1 = k
      · simp only [recordInsert, if_pos h, List.map_cons, List.mem_cons]
        rw [← h]
        tauto
      · simp only [recordInsert, if_neg h, List.map_cons, List.mem_cons, ih]
        tauto

/-- Inserting preserves distinctness of the record keys. -/
theorem keys_nodup_recordInsert (m : List (Nat × String)) (k : Nat)
    (v : String) (h : (m.map Prod.fst).Nodup) :
    ((recordInsert m k v).map Prod.fst).Nodup := by
  induction m with
  | nil => simp [recordInsert]
  | cons p rest ih =>
      simp only [List.map_cons, List.nodup_cons] at h
      by_cases hk : p.1 = k
      · simp only [recordInsert, if_pos hk, List.map_cons, List.nodup_cons]
        exact ⟨by rw [← hk]; exact h.1, h.2⟩
      · simp only [recordInsert, if_neg hk, List.map_cons, List.nodup_cons]
        refine ⟨?_, ih h.2⟩
        rw [mem_keys_recordInsert]
        rintro (rfl | hmem)
        · exact hk rfl
        · exact h.1 hmem

/-- A truthy lookup means the key is among the record keys. -/
theorem mem_keys_of_strTruthy (m : List (Nat × String)) (k : Nat)
    (h : strTruthy (recordGet m k) = true) : k ∈ m.map Prod.fst := by
  induction m with
  | nil => simp [recordGet, strTruthy] at h
  | cons p rest ih =>
      by_cases hk : p.1 = k
      · simp [hk]
      · simp only [recordGet, if_neg hk] at h
        simp [ih h]

/-- A duplicate-free list contained in another list is no longer than it. -/
theorem length_le_of_nodup_subset {l l' : List Nat} (hnd : l.Nodup)
    (hsub : ∀ x ∈ l, x ∈ l') : l.length ≤ l'.length :=
  calc l.length = l.toFinset.card := (List.toFinset_card_of_nodup hnd).symm
    _ ≤ l'.toFinset.card := by
        apply Finset.card_le_card
        intro x hx
        rw [List.mem_toFinset] at hx ⊢
        exact hsub x hx
    _ ≤ l'.length := l'.toFinset_card_le

/-- One step of the user interface preserves the invariant. -/
theorem quizInv_applyEv {st : QuizPageState} (h : QuizInv st) (now : Nat)
    (e : QuizEv) : QuizInv (applyEv st now e) := by
  obtain ⟨hload, hnd, hquiz, hres⟩ := h
  cases e with
  | setSubject s =>
      simp only [applyEv]
      split
      · rename_i hg
        refine ⟨hload, hnd, fun hq => ?_, fun hr => ?_⟩
        · exact absurd (hg ▸ hq) (by simp)
        · exact absurd (hg ▸ hr) (by simp)
      · exact ⟨hload, hnd, hquiz, hres⟩
  | setChapter c =>
      simp only [applyEv]
      split
      · rename_i hg
        rw [Bool.and_eq_true, decide_eq_true_eq] at hg
        refine ⟨hload, hnd, fun hq => ?_, fun hr => ?_⟩
        · exact absurd (hg.1 ▸ hq) (by simp)
        · exact absurd (hg.1 ▸ hr) (by simp)
      · exact ⟨hload, hnd, hquiz, hres⟩
  | startQuiz o =>
      simp only [applyEv]
      split
      · rename_i hg
        simp only [Bool.and_eq_true, decide_eq_true_eq] at hg
        obtain ⟨⟨⟨hstep, _⟩, _⟩, _⟩ := hg
        unfold handleStartQuiz
        split
        · exact ⟨hload, hnd, hquiz, hres⟩
        · cases o with
          | ok d =>
              dsimp only
              by_cases hempty : d.questions.isEmpty = true
              · rw [if_pos hempty]
                refine ⟨rfl, hnd, fun hq => ?_, fun hr => ?_⟩
                · exact QStep.noConfusion (hstep.symm.trans hq)
                · exact QStep.noConfusion (hstep.symm.trans hr)
              · rw [if_neg hempty]
                have hne : d.questions ≠ [] := by
                  intro hnil
                  rw [hnil] at hempty
                  exact hempty rfl
                refine ⟨rfl, by simp, fun _ => ?_, fun hr => ?_⟩
                · refine ⟨d, rfl, hne, ?_, by simp⟩
                  show 0 < d.questions.length
                  exact List.length_pos.mpr hne
                · exact QStep.noConfusion hr
          | error m =>
              dsimp only
              refine ⟨rfl, hnd, fun hq => ?_, fun hr => ?_⟩
              · exact QStep.noConfusion (hstep.symm.trans hq)
              · exact QStep.noConfusion (hstep.symm.trans hr)
      · exact ⟨hload, hnd, hquiz, hres⟩
  | selectOpt opt =>
      simp only [applyEv]
      split
      · rename_i qz hstep hq
        split
        · rename_i q hget
          split
          · obtain ⟨qz', hqz', hne, hlt, hsub⟩ := hquiz hstep
            rw [hq] at hqz'
            injection hqz' with hqz'
            subst hqz'
            refine ⟨hload, keys_nodup_recordInsert _ _ _ hnd, fun _ => ?_,
              fun hr => ?_⟩
            · refine ⟨qz, by simpa [handleSelectAnswer] using hq, hne, hlt, ?_⟩
              intro k hk
              simp only [handleSelectAnswer] at hk
              rw [mem_keys_recordInsert] at hk
              rcases hk with rfl | hk
              · have hqmem : q ∈ qz.questions := List.get?_mem hget
                exact List.mem_map_of_mem QuizQuestion.id hqmem
              · exact hsub k hk
            · exact absurd (hstep ▸ hr) (by simp)
          · exact ⟨hload, hnd, hquiz, hres⟩
        · exact ⟨hload, hnd, hquiz, hres⟩
      · exact ⟨hload, hnd, hquiz, hres⟩
  | next =>
      simp only [applyEv]
      split
      · rename_i qz hstep hq
        split
        · rename_i q hget
          split
          · rename_i hcond
            obtain ⟨qz', hqz', hne, hlt, hsub⟩ := hquiz hstep
            rw [hq] at hqz'
            injection hqz' with hqz'
            subst hqz'
            simp only [Bool.and_eq_true, Bool.not_eq_true'] at hcond
            have hlast : st.currentQ ≠ qz.questions.length - 1 := by
              have := hcond.1
              simp only [isLastQ] at this
              intro heq
              rw [heq] at this
              simp at this
            refine ⟨hload, hnd,
              fun _ => ⟨qz, hq, hne, ?_, hsub⟩,
              fun hr => QStep.noConfusion (hstep.symm.trans hr)⟩
            show st.currentQ + 1 < qz.questions.length
            omega
          · exact ⟨hload, hnd, hquiz, hres⟩
        · exact ⟨hload, hnd, hquiz, hres⟩
      · exact ⟨hload, hnd, hquiz, hres⟩
  | previous =>
      simp only [applyEv]
      split
      · rename_i qz hstep hq
        split
        · obtain ⟨qz', hqz', hne, hlt, hsub⟩ := hquiz hstep
          rw [hq] at hqz'
          injection hqz' with hqz'
          subst hqz'
          refine ⟨hload, hnd,
            fun _ => ⟨qz, hq, hne, ?_, hsub⟩,
            fun hr => QStep.noConfusion (hstep.symm.trans hr)⟩
          show st.currentQ - 1 < qz.questions.length
          omega
        · exact ⟨hload, hnd, hquiz, hres⟩
      · exact ⟨hload, hnd, hquiz, hres⟩
  | submit o =>
      simp only [applyEv]
      split
      · rename_i qz hstep hq
        split
        · unfold handleSubmitQuiz
          rw [hq]
          cases o with
          | ok r =>
              dsimp only
              exact ⟨rfl, hnd, fun hstep' => QStep.noConfusion hstep',
                fun _ => rfl⟩
          | error m =>
              dsimp only
              refine ⟨rfl, hnd, fun hstep' => ?_,
                fun hr => QStep.noConfusion (hstep.symm.trans hr)⟩
              obtain ⟨qz', hqz', hne, hlt, hsub⟩ := hquiz hstep'
              rw [hq] at hqz'
              injection hqz' with hqz'
              subst hqz'
              exact ⟨qz, rfl, hne, hlt, hsub⟩
        · exact ⟨hload, hnd, hquiz, hres⟩
      · exact ⟨hload, hnd, hquiz, hres⟩
  | newQuiz =>
      simp only [applyEv]
      split
      · refine ⟨hload, hnd, fun hq => ?_, fun hr => ?_⟩
        · simp only [newQuizClick] at hq
          exact absurd hq (by simp)
        · simp only [newQuizClick] at hr
          exact absurd hr (by simp)
      · exact ⟨hload, hnd, hquiz, hres⟩

/-- Every reachable state satisfies the invariant. -/
theorem reachable_quizInv {st : QuizPageState} (h : Reachable st) :
    QuizInv st := by
  induction h with
  | init subject chapterId t0 =>
      refine ⟨rfl, by simp [initQuizState], fun hq => ?_, fun hr => ?_⟩
      · exact absurd hq (by simp [initQuizState])
      · exact absurd hr (by simp [initQuizState])
  | step h now e ih => exact quizInv_applyEv ih now e

/-- Running a trace of events preserves reachability. -/
theorem reachable_runEvents {st : QuizPageState} (h : Reachable st)
    (trace : List (Nat × QuizEv)) : Reachable (runEvents st trace) := by
  induction trace generalizing st with
  | nil => exact h
  | cons te rest ih => exact ih (Reachable.step h te.1 te.2)

/- ### Frame lemmas -/

/-- No user-interface event of `QuizPage` ever writes `startTime`: the
`useState(Date.now())` cell has no setter. -/
theorem applyEv_startTime (st : QuizPageState) (now : Nat) (e : QuizEv) :
    (applyEv st now e).startTime = st.startTime := by
  cases e <;>
    simp only [applyEv, handleStartQuiz, handleSelectAnswer,
      handleSubmitQuiz, newQuizClick] <;>
    (repeat' split) <;> rfl

/-- `startTime` survives any event trace. -/
theorem runEvents_startTime (st : QuizPageState)
    (trace : List (Nat × QuizEv)) :
    (runEvents st trace).startTime = st.startTime := by
  induction trace generalizing st with
  | nil => rfl
  | cons te rest ih => rw [runEvents, ih, applyEv_startTime]


/- ### Claim theorems -/

/-- Claim C1 (code bug): the question-answering call is NOT bound to a
15000ms deadline.  The abort signal is never wired into the request
(`abortSignalWired = false`), so with a backend that responds successfully
after 20000ms the in-flight call is not abandoned at 15000ms: it settles at
20000ms with the success message appended to history, no timeout text and
no timeout warning; only the 120000ms transport ceiling can ever produce
the timeout path. -/
theorem chat_fifteen_second_deadline_not_enforced :
    abortSignalWired = false ∧
    chatDeadlineMs < 20000 ∧
    askSettleMs 20000 = 20000 ∧
    askOutcome 20000 (Except.ok demoResp) = AskOutcome.success demoResp ∧
    chatAfterSlowSuccess.messages.map Message.content =
      ["Explain the key concepts", "The key concepts are: ..."] ∧
    chatAfterSlowSuccess.error = none ∧
    chatAfterSlowSuccess.isLoading = false :=
  ⟨rfl, by norm_num [chatDeadlineMs], rfl, rfl, by decide, by decide,
    by decide⟩

/-- Claim C6: for every chat send with non-empty (non-whitespace) input,
present student, subject and chapter, and no pending response, the handler
appends the user message first and then exactly one assistant message,
whatever the network outcome. -/
theorem chat_send_appends_user_then_one_assistant
    (student subjectId chapterId : Option String) (st : ChatState)
    (now backendDelay : Nat) (backend : Except String ChatResponse)
    (hin : (jsTrim st.input).isEmpty = false) (hstu : student.isSome = true)
    (hsub : subjectId.isSome = true) (hch : chapterId.isSome = true)
    (hload : st.isLoading = false) :
    ∃ u a : Message,
      (handleSendMessage student subjectId chapterId st now backendDelay
          backend).messages = st.messages ++ [u, a] ∧
      u.role = Role.user ∧ u.content = st.input ∧
      a.role = Role.assistant := by
  obtain ⟨sv, rfl⟩ := Option.isSome_iff_exists.mp hstu
  obtain ⟨subv, rfl⟩ := Option.isSome_iff_exists.mp hsub
  obtain ⟨chv, rfl⟩ := Option.isSome_iff_exists.mp hch
  unfold handleSendMessage
  rw [if_neg (by simp [hin, hload])]
  cases h : askOutcome backendDelay backend with
  | success r =>
      refine ⟨{ id := toString now, role := Role.user, content := st.input,
                timestamp := now },
              { id := toString (now + askSettleMs backendDelay + 1),
                role := Role.assistant, content := r.answer,
                timestamp := now + askSettleMs backendDelay,
                difficulty := some r.difficulty, sources := r.sources },
              ?_, rfl, rfl, rfl⟩
      simp [h]
  | abortError =>
      refine ⟨{ id := toString now, role := Role.user, content := st.input,
                timestamp := now },
              { id := toString (now + askSettleMs backendDelay),
                role := Role.assistant,
                content := if isTimeoutOutcome AskOutcome.abortError then
                  timeoutChatText else connectionChatText,
                timestamp := now + askSettleMs backendDelay },
              ?_, rfl, rfl, rfl⟩
      simp [h]
  | transportTimeout =>
      refine ⟨{ id := toString now, role := Role.user, content := st.input,
                timestamp := now },
              { id := toString (now + askSettleMs backendDelay),
                role := Role.assistant,
                content := if isTimeoutOutcome AskOutcome.transportTimeout
                  then timeoutChatText else connectionChatText,
                timestamp := now + askSettleMs backendDelay },
              ?_, rfl, rfl, rfl⟩
      simp [h]
  | transportFailure m =>
      refine ⟨{ id := toString now, role := Role.user, content := st.input,
                timestamp := now },
              { id := toString (now + askSettleMs backendDelay),
                role := Role.assistant,
                content := if isTimeoutOutcome (AskOutcome.transportFailure m)
                  then timeoutChatText else connectionChatText,
                timestamp := now + askSettleMs backendDelay },
              ?_, rfl, rfl, rfl⟩
      simp [h]

/-- Witness for C6 at a concrete send. -/
theorem chat_send_appends_user_then_one_assistant_witness :
    ∃ u a : Message,
      chatAfterSlowSuccess.messages = demoChatState.messages ++ [u, a] ∧
      u.role = Role.user ∧ u.content = demoChatState.input ∧
      a.role = Role.assistant :=
  chat_send_appends_user_then_one_assistant (some "s1") (some "math")
    (some "ch1_linear_equations") demoChatState 1000 20000
    (Except.ok demoResp) (by decide) rfl rfl rfl rfl

/-- Claim C4: a `startQuiz` whose generation response carries zero
questions aborts the setup-to-active transition: an error is surfaced,
the phase remains `setup` and no quiz session is created; a non-empty
response activates the session with `currentQ = 0` and empty `answers`. -/
theorem startQuiz_empty_aborts_nonempty_activates
    (st : QuizPageState) (now : Nat) (d : QuizData)
    (hstep : st.step = QStep.setup) (hsub : st.subject.isEmpty = false)
    (hch : st.chapterId.isEmpty = false) (hload : st.loading = false) :
    (d.questions = [] →
      (applyEv st now (QuizEv.startQuiz (Except.ok d))).step = QStep.setup ∧
      (applyEv st now (QuizEv.startQuiz (Except.ok d))).quiz = st.quiz ∧
      (applyEv st now (QuizEv.startQuiz (Except.ok d))).error =
        some "Quiz returned no questions. Please try again." ∧
      (applyEv st now (QuizEv.startQuiz (Except.ok d))).answers =
        st.answers) ∧
    (d.questions ≠ [] →
      (applyEv st now (QuizEv.startQuiz (Except.ok d))).step = QStep.quiz ∧
      (applyEv st now (QuizEv.startQuiz (Except.ok d))).quiz = some d ∧
      (applyEv st now (QuizEv.startQuiz (Except.ok d))).currentQ = 0 ∧
      (applyEv st now (QuizEv.startQuiz (Except.ok d))).answers = [] ∧
      (applyEv st now (QuizEv.startQuiz (Except.ok d))).error = none) := by
  have hred : applyEv st now (QuizEv.startQuiz (Except.ok d)) =
      handleStartQuiz st (Except.ok d) := by
    simp only [applyEv]
    rw [if_pos (by simp [hstep, hsub, hch, hload])]
  have hform : handleStartQuiz st (Except.ok d) =
      if st.subject.isEmpty || st.chapterId.isEmpty then st
      else if d.questions.isEmpty then
        { st with
          loading := false,
          error := some "Quiz returned no questions. Please try again." }
      else
        { st with
          quiz := some d,
          step := QStep.quiz,
          currentQ := 0,
          answers := [],
          loading := false,
          error := none } := rfl
  rw [hred, hform, if_neg (by simp [hsub, hch])]
  constructor
  · intro hnil
    rw [if_pos (by simp [hnil])]
    exact ⟨hstep, rfl, rfl, rfl⟩
  · intro hne
    rw [if_neg (by simpa using hne)]
    exact ⟨rfl, rfl, rfl, rfl, rfl⟩

/-- Witness for C4: an empty generation response leaves setup untouched,
a five-question response activates the session. -/
theorem startQuiz_empty_aborts_nonempty_activates_witness :
    ((applyEv (initQuizState "math" "ch1_linear_equations" 0) 30000
        (QuizEv.startQuiz (Except.ok emptyQuiz))).step = QStep.setup ∧
      (applyEv (initQuizState "math" "ch1_linear_equations" 0) 30000
        (QuizEv.startQuiz (Except.ok emptyQuiz))).quiz =
        (initQuizState "math" "ch1_linear_equations" 0).quiz ∧
      (applyEv (initQuizState "math" "ch1_linear_equations" 0) 30000
        (QuizEv.startQuiz (Except.ok emptyQuiz))).error =
        some "Quiz returned no questions. Please try again." ∧
      (applyEv (initQuizState "math" "ch1_linear_equations" 0) 30000
        (QuizEv.startQuiz (Except.ok emptyQuiz))).answers =
        (initQuizState "math" "ch1_linear_equations" 0).answers) ∧
    ((applyEv (initQuizState "math" "ch1_linear_equations" 0) 30000
        (QuizEv.startQuiz (Except.ok demoQuiz))).step = QStep.quiz ∧
      (applyEv (initQuizState "math" "ch1_linear_equations" 0) 30000
        (QuizEv.startQuiz (Except.ok demoQuiz))).quiz = some demoQuiz ∧
      (applyEv (initQuizState "math" "ch1_linear_equations" 0) 30000
        (QuizEv.startQuiz (Except.ok demoQuiz))).currentQ = 0 ∧
      (applyEv (initQuizState "math" "ch1_linear_equations" 0) 30000
        (QuizEv.startQuiz (Except.ok demoQuiz))).answers = [] ∧
      (applyEv (initQuizState "math" "ch1_linear_equations" 0) 30000
        (QuizEv.startQuiz (Except.ok demoQuiz))).error = none) :=
  ⟨(startQuiz_empty_aborts_nonempty_activates
      (initQuizState "math" "ch1_linear_equations" 0) 30000 emptyQuiz
      rfl (by decide) (by decide) rfl).1 rfl,
   (startQuiz_empty_aborts_nonempty_activates
      (initQuizState "math" "ch1_linear_equations" 0) 30000 demoQuiz
      rfl (by decide) (by decide) rfl).2 (by decide)⟩

/-- Claim C5: when a quiz submission fails, the session stays in the
active phase, the quiz and the answers map are unchanged so the user can
retry, and the surfaced error is the fixed copy stating the answers were
not saved. -/
theorem submit_failure_stays_active_keeps_answers
    (st : QuizPageState) (now : Nat) (qz : QuizData) (m : String)
    (hstep : st.step = QStep.quiz) (hq : st.quiz = some qz)
    (hlast : isLastQ qz st = true) (hall : allAnswered qz st = true)
    (hload : st.loading = false) :
    (applyEv st now (QuizEv.submit (Except.error m))).step = QStep.quiz ∧
    (applyEv st now (QuizEv.submit (Except.error m))).answers =
      st.answers ∧
    (applyEv st now (QuizEv.submit (Except.error m))).quiz = st.quiz ∧
    (applyEv st now (QuizEv.submit (Except.error m))).currentQ =
      st.currentQ ∧
    (applyEv st now (QuizEv.submit (Except.error m))).error =
      some submitFailedText ∧
    submitFailedText =
      "Failed to submit quiz. Your answers were not saved." := by
  have hred : applyEv st now (QuizEv.submit (Except.error m)) =
      { st with loading := false, error := some submitFailedText } := by
    simp [applyEv, hstep, hq, hlast, hall, hload, handleSubmitQuiz]
  rw [hred]
  exact ⟨hstep, rfl, rfl, rfl, rfl, rfl⟩

/-- Witness for C5 on the fully answered demonstration session. -/
theorem submit_failure_stays_active_keeps_answers_witness :
    (applyEv demoAnswered 90000
      (QuizEv.submit (Except.error "Network Error"))).step = QStep.quiz ∧
    (applyEv demoAnswered 90000
      (QuizEv.submit (Except.error "Network Error"))).answers =
      demoAnswered.answers ∧
    (applyEv demoAnswered 90000
      (QuizEv.submit (Except.error "Network Error"))).quiz =
      demoAnswered.quiz ∧
    (applyEv demoAnswered 90000
      (QuizEv.submit (Except.error "Network Error"))).currentQ =
      demoAnswered.currentQ ∧
    (applyEv demoAnswered 90000
      (QuizEv.submit (Except.error "Network Error"))).error =
      some submitFailedText ∧
    submitFailedText =
      "Failed to submit quiz. Your answers were not saved." :=
  submit_failure_stays_active_keeps_answers demoAnswered 90000 demoQuiz
    "Network Error" (by decide) (by decide) (by decide) (by decide)
    (by decide)

/-- Claim C10: `newQuiz` from the result view changes only the phase, the
quiz session and the stored result; answers, subject, chapter, index,
error and start time all persist, and the retained answers are cleared
exactly by the next successful generation. -/
theorem newQuiz_frame_and_clear_on_next_generation :
    (∀ (st : QuizPageState) (now : Nat),
      st.step = QStep.result → st.result.isSome = true →
      (applyEv st now QuizEv.newQuiz).step = QStep.setup ∧
      (applyEv st now QuizEv.newQuiz).quiz = none ∧
      (applyEv st now QuizEv.newQuiz).result = none ∧
      (applyEv st now QuizEv.newQuiz).answers = st.answers ∧
      (applyEv st now QuizEv.newQuiz).subject = st.subject ∧
      (applyEv st now QuizEv.newQuiz).chapterId = st.chapterId ∧
      (applyEv st now QuizEv.newQuiz).currentQ = st.currentQ ∧
      (applyEv st now QuizEv.newQuiz).error = st.error ∧
      (applyEv st now QuizEv.newQuiz).startTime = st.startTime) ∧
    (∀ (st : QuizPageState) (now : Nat) (d : QuizData),
      st.step = QStep.setup → st.subject.isEmpty = false →
      st.chapterId.isEmpty = false → st.loading = false →
      ((applyEv st now (QuizEv.startQuiz (Except.ok d))).answers =
        if d.questions.isEmpty then st.answers else []) ∧
      ∀ m, (applyEv st now (QuizEv.startQuiz (Except.error m))).answers =
        st.answers) := by
  constructor
  · intro st now hstep hres
    have hred : applyEv st now QuizEv.newQuiz = newQuizClick st := by
      simp [applyEv, hstep, hres]
    rw [hred]
    exact ⟨rfl, rfl, rfl, rfl, rfl, rfl, rfl, rfl, rfl⟩
  · intro st now d hstep hsub hch hload
    have hred : ∀ o, applyEv st now (QuizEv.startQuiz o) =
        handleStartQuiz st o := by
      intro o
      simp only [applyEv]
      rw [if_pos (by simp [hstep, hsub, hch, hload])]
    have hform : handleStartQuiz st (Except.ok d) =
        if st.subject.isEmpty || st.chapterId.isEmpty then st
        else if d.questions.isEmpty then
          { st with
            loading := false,
            error := some "Quiz returned no questions. Please try again." }
        else
          { st with
            quiz := some d,
            step := QStep.quiz,
            currentQ := 0,
            answers := [],
            loading := false,
            error := none } := rfl
    constructor
    · rw [hred, hform, if_neg (by simp [hsub, hch])]
      by_cases hempty : d.questions.isEmpty = true
      · rw [if_pos hempty, if_pos hempty]
      · rw [if_neg hempty, if_neg hempty]
    · intro m
      have hformE : handleStartQuiz st (Except.error m) =
          if st.subject.isEmpty || st.chapterId.isEmpty then st
          else { st with
            loading := false,
            error := some (startQuizErrorText m) } := rfl
      rw [hred, hformE, if_neg (by simp [hsub, hch])]

/-- Witness for C10 at the demonstration result state. -/
theorem newQuiz_frame_and_clear_on_next_generation_witness :
    ((applyEv demoResultState 95000 QuizEv.newQuiz).step = QStep.setup ∧
      (applyEv demoResultState 95000 QuizEv.newQuiz).quiz = none ∧
      (applyEv demoResultState 95000 QuizEv.newQuiz).result = none ∧
      (applyEv demoResultState 95000 QuizEv.newQuiz).answers =
        demoResultState.answers ∧
      (applyEv demoResultState 95000 QuizEv.newQuiz).subject =
        demoResultState.subject ∧
      (applyEv demoResultState 95000 QuizEv.newQuiz).chapterId =
        demoResultState.chapterId ∧
      (applyEv demoResultState 95000 QuizEv.newQuiz).currentQ =
        demoResultState.currentQ ∧
      (applyEv demoResultState 95000 QuizEv.newQuiz).error =
        demoResultState.error ∧
      (applyEv demoResultState 95000 QuizEv.newQuiz).startTime =
        demoResultState.startTime) ∧
    (((applyEv (initQuizState "math" "ch1_linear_equations" 0) 30000
        (QuizEv.startQuiz (Except.ok demoQuiz))).answers =
      if demoQuiz.questions.isEmpty then
        (initQuizState "math" "ch1_linear_equations" 0).answers else []) ∧
      ∀ m, (applyEv (initQuizState "math" "ch1_linear_equations" 0) 30000
        (QuizEv.startQuiz (Except.error m))).answers =
        (initQuizState "math" "ch1_linear_equations" 0).answers) :=
  ⟨newQuiz_frame_and_clear_on_next_generation.1 demoResultState 95000
    (by decide) (by decide),
   newQuiz_frame_and_clear_on_next_generation.2
    (initQuizState "math" "ch1_linear_equations" 0) 30000 demoQuiz
    rfl (by decide) (by decide) rfl⟩

/-- Claim C2: from any reachable state, the only event that moves the page
into the result phase is a submit with a successful outcome, and it can
fire only when the current question is the last one and every question has
a recorded answer; with distinct question ids the answers map then has
exactly one entry per question. -/
theorem result_only_via_fully_answered_submit
    (st : QuizPageState) (now : Nat) (e : QuizEv) (hre : Reachable st)
    (hpre : st.step ≠ QStep.result)
    (hpost : (applyEv st now e).step = QStep.result) :
    ∃ qz r, st.quiz = some qz ∧ e = QuizEv.submit (Except.ok r) ∧
      isLastQ qz st = true ∧ allAnswered qz st = true ∧
      ((qz.questions.map QuizQuestion.id).Nodup →
        st.answers.length = qz.questions.length) := by
  obtain ⟨hload, hnd, hquiz, hres⟩ := reachable_quizInv hre
  cases e with
  | setSubject s =>
      exfalso
      revert hpost
      simp only [applyEv]
      split
      · rename_i hg
        intro hpost
        exact hpre (hg ▸ hpost)
      · exact hpre
  | setChapter c =>
      exfalso
      revert hpost
      simp only [applyEv]
      split
      · rename_i hg
        simp only [Bool.and_eq_true, decide_eq_true_eq] at hg
        intro hpost
        exact hpre (hg.1 ▸ hpost)
      · exact hpre
  | startQuiz o =>
      exfalso
      revert hpost
      simp only [applyEv]
      split
      · unfold handleStartQuiz
        split
        · exact hpre
        · cases o with
          | ok d =>
              dsimp only
              split
              · exact hpre
              · intro hpost
                exact QStep.noConfusion hpost
          | error m =>
              dsimp only
              exact hpre
      · exact hpre
  | selectOpt opt =>
      exfalso
      revert hpost
      simp only [applyEv]
      (repeat' split) <;> exact hpre
  | next =>
      exfalso
      revert hpost
      simp only [applyEv]
      (repeat' split) <;> exact hpre
  | previous =>
      exfalso
      revert hpost
      simp only [applyEv]
      (repeat' split) <;> exact hpre
  | newQuiz =>
      exfalso
      revert hpost
      simp only [applyEv]
      split
      · intro hpost
        exact QStep.noConfusion hpost
      · exact hpre
  | submit o =>
      revert hpost
      simp only [applyEv]
      split
      · rename_i qz hstep hq
        split
        · rename_i hguard
          simp only [Bool.and_eq_true] at hguard
          unfold handleSubmitQuiz
          rw [hq]
          cases o with
          | ok r =>
              intro _
              refine ⟨qz, r, rfl, rfl, hguard.1.1, hguard.1.2, ?_⟩
              intro hidnd
              have hall := hguard.1.2
              rw [allAnswered, List.all_eq_true] at hall
              have hids_sub : ∀ k ∈ qz.questions.map QuizQuestion.id,
                  k ∈ st.answers.map Prod.fst := by
                intro k hk
                rw [List.mem_map] at hk
                obtain ⟨q, hqmem, rfl⟩ := hk
                exact mem_keys_of_strTruthy _ _ (hall q hqmem)
              have hkeys_sub : ∀ k ∈ st.answers.map Prod.fst,
                  k ∈ qz.questions.map QuizQuestion.id := by
                obtain ⟨qz', hqz', _, _, hsub⟩ := hquiz hstep
                rw [hq] at hqz'
                injection hqz' with hqz'
                subst hqz'
                exact hsub
              have h1 := length_le_of_nodup_subset hnd hkeys_sub
              have h2 := length_le_of_nodup_subset hidnd hids_sub
              simp only [List.length_map] at h1 h2
              omega
          | error m =>
              dsimp only
              intro hpost
              exact absurd (hstep.symm.trans hpost) (by simp)
        · intro hpost
          exact absurd hpost hpre
      · intro hpost
        exact absurd hpost hpre

/-- Witness for C2: the demonstration submit event reaches the result
phase from the fully answered last question. -/
theorem result_only_via_fully_answered_submit_witness :
    ∃ qz r, demoAnswered.quiz = some qz ∧
      QuizEv.submit (Except.ok demoResult) = QuizEv.submit (Except.ok r) ∧
      isLastQ qz demoAnswered = true ∧
      allAnswered qz demoAnswered = true ∧
      ((qz.questions.map QuizQuestion.id).Nodup →
        demoAnswered.answers.length = qz.questions.length) :=
  result_only_via_fully_answered_submit demoAnswered 90000
    (QuizEv.submit (Except.ok demoResult))
    (reachable_runEvents
      (Reachable.init "math" "ch1_linear_equations" 0) demoAnswerTrace)
    (by decide) (by decide)

/-- Claim C7: `selectAnswer` overwrites the previously recorded option for
a question id rather than accumulating, and in any reachable active state
the answers map never has more entries than the quiz has questions. -/
theorem selectAnswer_overwrites_and_answers_bounded :
    (∀ (st : QuizPageState) (q : Nat) (a b : String),
      recordGet
        (handleSelectAnswer (handleSelectAnswer st q a) q b).answers q =
        some b) ∧
    (∀ st : QuizPageState, Reachable st → st.step = QStep.quiz →
      ∀ qz, st.quiz = some qz →
        st.answers.length ≤ qz.questions.length) := by
  constructor
  · intro st q a b
    exact recordGet_recordInsert_self _ _ _
  · intro st hre hstep qz hq
    obtain ⟨_, hnd, hquiz, _⟩ := reachable_quizInv hre
    obtain ⟨qz', hqz', _, _, hsub⟩ := hquiz hstep
    rw [hq] at hqz'
    injection hqz' with hqz'
    subst hqz'
    have := length_le_of_nodup_subset hnd hsub
    simpa using this

/-- Witness for C7: scenario B (`selectAnswer(3,"B")` then
`selectAnswer(3,"D")` leaves `answers[3] = "D"`) and the bound on the
demonstration session. -/
theorem selectAnswer_overwrites_and_answers_bounded_witness :
    recordGet
      (handleSelectAnswer (handleSelectAnswer demoActive 3 "B") 3
        "D").answers 3 = some "D" ∧
    demoAnswered.answers.length ≤ demoQuiz.questions.length :=
  ⟨selectAnswer_overwrites_and_answers_bounded.1 demoActive 3 "B" "D",
   selectAnswer_overwrites_and_answers_bounded.2 demoAnswered
    (reachable_runEvents
      (Reachable.init "math" "ch1_linear_equations" 0) demoAnswerTrace)
    (by decide) demoQuiz (by decide)⟩

/-- Claim C9: in every reachable active state `currentQ` is within
`[0, len(questions))`; `next` adds one exactly when the current question
is answered and not the last, `previous` subtracts one exactly when not on
the first question, and no other event changes `currentQ` while the page
is in the active phase. -/
theorem active_index_bounds_and_navigation :
    (∀ st : QuizPageState, Reachable st → st.step = QStep.quiz →
      ∃ qz, st.quiz = some qz ∧ st.currentQ < qz.questions.length) ∧
    (∀ (st : QuizPageState) (now : Nat) (qz : QuizData)
        (q : QuizQuestion), st.step = QStep.quiz → st.quiz = some qz →
      qz.questions.get? st.currentQ = some q →
      (applyEv st now QuizEv.next).currentQ =
        (if !isLastQ qz st && strTruthy (recordGet st.answers q.id) then
          st.currentQ + 1 else st.currentQ)) ∧
    (∀ (st : QuizPageState) (now : Nat) (qz : QuizData),
      st.step = QStep.quiz → st.quiz = some qz →
      (applyEv st now QuizEv.previous).currentQ =
        (if 0 < st.currentQ then st.currentQ - 1 else st.currentQ)) ∧
    (∀ (st : QuizPageState) (now : Nat) (e : QuizEv),
      st.step = QStep.quiz → e ≠ QuizEv.next → e ≠ QuizEv.previous →
      (applyEv st now e).currentQ = st.currentQ) := by
  refine ⟨?_, ?_, ?_, ?_⟩
  · intro st hre hstep
    obtain ⟨_, _, hquiz, _⟩ := reachable_quizInv hre
    obtain ⟨qz, hq, _, hlt, _⟩ := hquiz hstep
    exact ⟨qz, hq, hlt⟩
  · intro st now qz q hstep hq hget
    simp only [applyEv, hstep, hq, hget]
    by_cases hc :
        (!isLastQ qz st && strTruthy (recordGet st.answers q.id)) = true
    · rw [if_pos hc, if_pos hc]
    · rw [if_neg hc, if_neg hc]
  · intro st now qz hstep hq
    simp only [applyEv, hstep, hq]
    by_cases hc : 0 < st.currentQ
    · rw [if_pos hc, if_pos hc]
    · rw [if_neg hc, if_neg hc]
  · intro st now e hstep hnext hprev
    cases e with
    | setSubject s =>
        simp only [applyEv]
        split <;> rfl
    | setChapter c =>
        simp only [applyEv]
        split <;> rfl
    | startQuiz o =>
        simp only [applyEv]
        split
        · rename_i hg
          simp only [Bool.and_eq_true, decide_eq_true_eq] at hg
          exact absurd (hstep.symm.trans hg.1.1.1) (by simp)
        · rfl
    | selectOpt opt =>
        simp only [applyEv, handleSelectAnswer]
        (repeat' split) <;> rfl
    | next => exact absurd rfl hnext
    | previous => exact absurd rfl hprev
    | submit o =>
        simp only [applyEv, handleSubmitQuiz]
        (repeat' split) <;> rfl
    | newQuiz =>
        simp only [applyEv, newQuizClick]
        split <;> rfl

/-- Witness for C9 on the demonstration session. -/
theorem active_index_bounds_and_navigation_witness :
    (∃ qz, demoAnswered.quiz = some qz ∧
      demoAnswered.currentQ < qz.questions.length) ∧
    ((applyEv demoActive 31000 QuizEv.next).currentQ =
      (if !isLastQ demoQuiz demoActive &&
          strTruthy (recordGet demoActive.answers 1) then
        demoActive.currentQ + 1 else demoActive.currentQ)) ∧
    ((applyEv demoAnswered 40000 QuizEv.previous).currentQ =
      (if 0 < demoAnswered.currentQ then demoAnswered.currentQ - 1
        else demoAnswered.currentQ)) ∧
    ((applyEv demoAnswered 41000 (QuizEv.selectOpt "B")).currentQ =
      demoAnswered.currentQ) :=
  ⟨active_index_bounds_and_navigation.1 demoAnswered
    (reachable_runEvents
      (Reachable.init "math" "ch1_linear_equations" 0) demoAnswerTrace)
    (by decide),
   active_index_bounds_and_navigation.2.1 demoActive 31000 demoQuiz
    ⟨1, "Q1", ["A", "B", "C", "D"]⟩ (by decide) (by decide) (by decide),
   active_index_bounds_and_navigation.2.2.1 demoAnswered 40000 demoQuiz
    (by decide) (by decide),
   active_index_bounds_and_navigation.2.2.2 demoAnswered 41000
    (QuizEv.selectOpt "B") (by decide) (by decide) (by decide)⟩

/-- Counterexample to claim C8 as stated: at `score = 119, total = 200`
the raw ratio 0.595 is below the claimed 0.6 threshold, yet the view shows
the good-performance treatment, because the code compares the rounded
percentage (60) with 60 rather than the raw ratio with 0.6. -/
theorem good_threshold_not_raw_ratio_cex :
    quizIsGood r119 = true ∧
    (r119.score : ℚ) / (r119.total : ℚ) < 3/5 := by
  constructor
  · norm_num [quizIsGood, quizPercentage, r119, round_eq]
  · norm_num [r119]

/-- Claim C8 as amended: the displayed percentage equals
`round(100 * score / total)` and the good-performance treatment is shown
exactly when that rounded percentage reaches 60, i.e. exactly when
`score/total ≥ 0.595`. -/
theorem display_rounding_and_threshold (r : QuizResult)
    (_hs : r.score ≤ r.total) (_ht : 0 < r.total) :
    quizPercentage r = round ((100 * (r.score : ℚ)) / (r.total : ℚ)) ∧
    (quizIsGood r = true ↔
      (119/200 : ℚ) ≤ (r.score : ℚ) / (r.total : ℚ)) := by
  constructor
  · unfold quizPercentage
    congr 1
    ring
  · unfold quizIsGood quizPercentage
    rw [decide_eq_true_eq, round_eq, Int.le_floor]
    push_cast
    constructor
    · intro h
      linarith
    · intro h
      linarith

/-- Witness for the amended C8 at the scenario D result (4 of 5). -/
theorem display_rounding_and_threshold_witness :
    demoResult.score ≤ demoResult.total ∧ 0 < demoResult.total ∧
    (quizPercentage demoResult =
      round ((100 * (demoResult.score : ℚ)) / (demoResult.total : ℚ)) ∧
     (quizIsGood demoResult = true ↔
      (119/200 : ℚ) ≤ (demoResult.score : ℚ) / (demoResult.total : ℚ))) :=
  ⟨by decide, by decide,
   display_rounding_and_threshold demoResult (by decide) (by decide)⟩

/-- Counterexample to claim C3 as stated: the page mounts (enters setup)
at time 0, the setup-to-active transition happens at 30000ms, and the
submission fires at 90000ms, yet the posted `time_taken` is 90 seconds —
measured from the mount — not the 60 seconds elapsed since the quiz
started, because `startTime` is fixed at mount and never reset. -/
theorem time_taken_includes_setup_time_cex :
    (initQuizState "math" "ch1_linear_equations" 0).step = QStep.setup ∧
    demoActive.step = QStep.quiz ∧
    isLastQ demoQuiz demoAnswered = true ∧
    allAnswered demoQuiz demoAnswered = true ∧
    (submitPayload "s1" demoQuiz demoAnswered 90000).time_taken = 90 ∧
    ((90000 - 30000 : ℕ) : ℚ) / 1000 = 60 ∧
    (submitPayload "s1" demoQuiz demoAnswered 90000).time_taken ≠ 60 := by
  have hstart : demoAnswered.startTime = 0 :=
    runEvents_startTime (initQuizState "math" "ch1_linear_equations" 0)
      demoAnswerTrace
  refine ⟨rfl, by decide, by decide, by decide, ?_, ?_, ?_⟩
  · show ((90000 - demoAnswered.startTime : ℕ) : ℚ) / 1000 = 90
    rw [hstart]
    norm_num
  · norm_num
  · show ((90000 - demoAnswered.startTime : ℕ) : ℚ) / 1000 ≠ 60
    rw [hstart]
    norm_num

/-- Claim C3 as amended: for every event trace of a quiz page mounted at
`t0`, a submission fired at time `now` posts
`time_taken = (now - t0) / 1000` seconds — the time elapsed since the page
was mounted (entry to setup), which includes any time spent in setup
before the quiz was generated. -/
theorem time_taken_measures_from_mount (subject chapterId : String)
    (t0 : Nat) (trace : List (Nat × QuizEv)) (sid : String) (qz : QuizData)
    (now : Nat) :
    (submitPayload sid qz
        (runEvents (initQuizState subject chapterId t0) trace)
        now).time_taken = ((now - t0 : ℕ) : ℚ) / 1000 := by
  unfold submitPayload submitTimeTaken
  rw [runEvents_startTime]
  rfl
